import Mathlib

/-!
Verification development for the stdio JSON-RPC validation harness of the
acmg-amp-classifier-mcp repository.  The definitions below are shallow
embeddings of the Python sources:

* `src/validation/clinical-accuracy-validation.py` — the clinical scoring
  engine (`ClinicalAccuracyValidator`): criteria accuracy (Jaccard),
  classification tolerance, per-case validation, and rule-based
  recommendation generation;
* `src/validation/mcp-protocol-compliance.py` — the protocol validator
  (`MCPProtocolValidator`): the stdio transport `send_message`, the
  connect/disconnect lifecycle and the check battery
  (`run_test` / `run_all_validations`);
* `src/examples/ai-agents/custom-clients/python-client.py` — the example
  client (`MCPClient`), whose `send_message` reads without a timeout.

Python floats are modelled as exact rationals (`ℚ`); Python sets of strings
as `Finset String` obtained through `List.toFinset`; exceptions as
`Except String`.  Wall-clock measurements (durations) are inputs to the
embedded functions, supplied by the environment.
-/

namespace ClinicalAccuracyValidator

/-- Embeds `ClinicalTestCase` (clinical-accuracy-validation.py, lines 38-48). -/
structure ClinicalTestCase where
  variant_id : String
  hgvs : String
  gene : String
  expected_classification : String
  expected_criteria : List String
  clinical_context : List String
  reference_source : String
  confidence_threshold : ℚ

/-- Embeds the `ValidationResult` dataclass of clinical-accuracy-validation.py
(lines 50-63).  The `details` dict — an echo of the inputs plus the raw server
reply — is omitted from the model; no claim concerns it. -/
structure ClinicalValidationResult where
  test_case_id : String
  passed : Bool
  predicted_classification : String
  expected_classification : String
  confidence_score : ℚ
  applied_criteria : List String
  expected_criteria : List String
  criteria_accuracy : ℚ
  message : String
  duration : Option ℚ

/-- Embeds the classification dict returned by the `classify_variant` tool
call, as consumed by `validate_test_case` (lines 267-269): each field is read
with `.get` and a default, so each is optional here. -/
structure ClassificationResult where
  classification : Option String
  confidence : Option ℚ
  applied_criteria : Option (List String)

/-- Embeds `calculate_criteria_accuracy` (lines 219-238): 1.0 when no
criteria are expected, 1.0 when both sets are empty, otherwise the Jaccard
index of the two sets, with a 0.0 fallback for an empty union. -/
def calculate_criteria_accuracy (predicted expected : List String) : ℚ :=
  if expected = [] then 1
  else
    let predicted_set := predicted.toFinset
    let expected_set := expected.toFinset
    if predicted_set = ∅ ∧ expected_set = ∅ then 1
    else
      let intersection := predicted_set ∩ expected_set
      let union := predicted_set ∪ expected_set
      if union ≠ ∅ then (intersection.card : ℚ) / (union.card : ℚ) else 0

/-- Embeds the `acceptable_mappings` dict of `classify_prediction_accuracy`
(lines 248-254), with the dict `.get(expected, [])` default for keys not in
the table. -/
def acceptable_mappings (expected : String) : List String :=
  if expected = "Pathogenic" then ["Likely Pathogenic"]
  else if expected = "Likely Pathogenic" then ["Pathogenic", "Uncertain Significance"]
  else if expected = "Uncertain Significance" then ["Likely Pathogenic", "Likely Benign"]
  else if expected = "Likely Benign" then ["Benign", "Uncertain Significance"]
  else if expected = "Benign" then ["Likely Benign"]
  else []

/-- Embeds `classify_prediction_accuracy` (lines 240-256): exact match, or
membership of the prediction in the adjacency table keyed by the expected
label. -/
def classify_prediction_accuracy (predicted expected : String) : Bool :=
  if predicted = expected then true
  else decide (predicted ∈ acceptable_mappings expected)

/-- The five-point ordered scale named by the spec (section 4.4) and by the
`classifications` list of `run_validation` (line 371). -/
def classification_scale : List String :=
  ["Pathogenic", "Likely Pathogenic", "Uncertain Significance", "Likely Benign", "Benign"]

/-- Immediate-neighbor adjacency on the five-point ordered scale: the two
labels occupy positions exactly one step apart in `classification_scale`. -/
def adjacentOnScale (expected predicted : String) : Prop :=
  ∃ i j : ℕ, i < 5 ∧ j < 5 ∧
    classification_scale.getD i "" = expected ∧
    classification_scale.getD j "" = predicted ∧
    (i + 1 = j ∨ j + 1 = i)

/-- The adjacency relation written out as ordered pairs (expected, predicted). -/
def neighbor_pairs : List (String × String) :=
  [("Pathogenic", "Likely Pathogenic"),
   ("Likely Pathogenic", "Pathogenic"),
   ("Likely Pathogenic", "Uncertain Significance"),
   ("Uncertain Significance", "Likely Pathogenic"),
   ("Uncertain Significance", "Likely Benign"),
   ("Likely Benign", "Uncertain Significance"),
   ("Likely Benign", "Benign"),
   ("Benign", "Likely Benign")]

/-- Decimal rendering of a rational with two fractional digits, standing in
for the Python `:.2f` float format (rounding approximated as round-half-up on
the exact rational).  Only the message strings depend on it. -/
def format2f (q : ℚ) : String :=
  let n := ⌊q * 100 + 1 / 2⌋
  let f := n % 100
  s!"{n / 100}." ++ (if f < 10 then "0" else "") ++ s!"{f}"

/-- Decimal rendering of a rational as a percentage with one fractional
digit, standing in for the Python `:.1%` float format (rounding approximated as
round-half-up on the exact rational). -/
def format1pct (q : ℚ) : String :=
  let n := ⌊q * 1000 + 1 / 2⌋
  s!"{n / 10}.{n % 10}%"

/-- Embeds `validate_test_case` (lines 258-335).  The tool call performed by
`classify_variant` is an input: `Except.ok` carries the classification dict of
a successful call, `Except.error` the message of a raised exception; the
measured wall time is the `elapsed` input. -/
def validate_test_case (tc : ClinicalTestCase) (call : Except String ClassificationResult)
    (elapsed : ℚ) : ClinicalValidationResult :=
  match call with
  | .ok classification_result =>
    let predicted_classification := classification_result.classification.getD "Unknown"
    let confidence_score := classification_result.confidence.getD 0
    let applied_criteria := classification_result.applied_criteria.getD []
    let classification_accurate :=
      classify_prediction_accuracy predicted_classification tc.expected_classification
    let criteria_accuracy :=
      calculate_criteria_accuracy applied_criteria tc.expected_criteria
    let passed := classification_accurate &&
      decide (confidence_score ≥ tc.confidence_threshold - 1 / 10)
    let message := if passed then "Classification accurate" else "Classification mismatch"
    let message :=
      if !classification_accurate then
        s!"Expected {tc.expected_classification}, got {predicted_classification}"
      else if confidence_score < tc.confidence_threshold then
        let conf := format2f confidence_score
        s!"Low confidence: {conf} < {tc.confidence_threshold}"
      else message
    { test_case_id := tc.variant_id
      passed := passed
      predicted_classification := predicted_classification
      expected_classification := tc.expected_classification
      confidence_score := confidence_score
      applied_criteria := applied_criteria
      expected_criteria := tc.expected_criteria
      criteria_accuracy := criteria_accuracy
      message := message
      duration := some elapsed }
  | .error e =>
    { test_case_id := tc.variant_id
      passed := false
      predicted_classification := "Error"
      expected_classification := tc.expected_classification
      confidence_score := 0
      applied_criteria := []
      expected_criteria := tc.expected_criteria
      criteria_accuracy := 0
      message := s!"Classification failed: {e}"
      duration := some elapsed }

/-- Embeds the per-classification metrics dict built by `run_validation`
(lines 373-381): `{"total": ..., "correct": ..., "accuracy": ...}`. -/
structure ClassMetrics where
  total : ℕ
  correct : ℕ
  accuracy : ℚ

/-- Embeds the advisory appended inside the per-category loop of
`run_validation` (line 407). -/
def category_recommendation (cls : String) (accuracy : ℚ) : String :=
  let pct := format1pct accuracy
  let low := cls.toLower
  s!"{cls} classification accuracy low ({pct}) - review {low} detection"

/-- Embeds the recommendation-generation block of `run_validation`
(lines 392-410): three scalar rules, one per-category rule over
`results_by_classification`, and a single affirmative fallback when no rule
fired. -/
def generate_recommendations (classification_accuracy criteria_accuracy : ℚ)
    (average_response_time : ℚ)
    (results_by_classification : List (String × ClassMetrics)) : List String :=
  let recommendations : List String := []
  let recommendations :=
    if classification_accuracy < 95 / 100 then
      recommendations ++
        ["Classification accuracy below 95% - review failed cases for systematic issues"]
    else recommendations
  let recommendations :=
    if criteria_accuracy < 80 / 100 then
      recommendations ++
        ["ACMG/AMP criteria accuracy below 80% - review criteria application logic"]
    else recommendations
  let recommendations :=
    if average_response_time > 5 then
      recommendations ++
        ["Average response time > 5 seconds - consider performance optimization"]
    else recommendations
  let recommendations := results_by_classification.foldl
    (fun acc x =>
      if x.2.accuracy < 90 / 100 then acc ++ [category_recommendation x.1 x.2.accuracy]
      else acc)
    recommendations
  if recommendations = [] then
    ["All clinical accuracy metrics meet or exceed targets"]
  else recommendations

end ClinicalAccuracyValidator

namespace ClinicalAccuracyValidator

theorem adjacent_iff_pairs (e p : String) :
    adjacentOnScale e p ↔ (e, p) ∈ neighbor_pairs := by
  constructor
  · rintro ⟨i, j, hi, hj, he, hp, hij⟩
    interval_cases i <;> interval_cases j <;>
      simp_all [classification_scale, neighbor_pairs]
  · intro h
    simp only [neighbor_pairs, List.mem_cons, List.mem_singleton,
      List.not_mem_nil, or_false, Prod.mk.injEq] at h
    rcases h with ⟨he, hp⟩ | ⟨he, hp⟩ | ⟨he, hp⟩ | ⟨he, hp⟩ |
      ⟨he, hp⟩ | ⟨he, hp⟩ | ⟨he, hp⟩ | ⟨he, hp⟩ <;> subst he <;> subst hp
    · exact ⟨0, 1, by omega, by omega, rfl, rfl, by omega⟩
    · exact ⟨1, 0, by omega, by omega, rfl, rfl, by omega⟩
    · exact ⟨1, 2, by omega, by omega, rfl, rfl, by omega⟩
    · exact ⟨2, 1, by omega, by omega, rfl, rfl, by omega⟩
    · exact ⟨2, 3, by omega, by omega, rfl, rfl, by omega⟩
    · exact ⟨3, 2, by omega, by omega, rfl, rfl, by omega⟩
    · exact ⟨3, 4, by omega, by omega, rfl, rfl, by omega⟩
    · exact ⟨4, 3, by omega, by omega, rfl, rfl, by omega⟩

theorem mem_acceptable_iff_pairs (e p : String) :
    p ∈ acceptable_mappings e ↔ (e, p) ∈ neighbor_pairs := by
  by_cases h1 : e = "Pathogenic"
  · subst h1; simp [acceptable_mappings, neighbor_pairs]
  by_cases h2 : e = "Likely Pathogenic"
  · subst h2; simp [acceptable_mappings, neighbor_pairs]
  by_cases h3 : e = "Uncertain Significance"
  · subst h3; simp [acceptable_mappings, neighbor_pairs]
  by_cases h4 : e = "Likely Benign"
  · subst h4; simp [acceptable_mappings, neighbor_pairs, or_comm]
  by_cases h5 : e = "Benign"
  · subst h5; simp [acceptable_mappings, neighbor_pairs]
  · simp [acceptable_mappings, neighbor_pairs, h1, h2, h3, h4, h5]

theorem criteria_accuracy_eq_jaccard (P E : List String) (hE : E ≠ []) :
    calculate_criteria_accuracy P E =
      ((P.toFinset ∩ E.toFinset).card : ℚ) / ((P.toFinset ∪ E.toFinset).card : ℚ) := by
  have hEf : E.toFinset ≠ ∅ := by simpa [List.toFinset_eq_empty_iff] using hE
  have hu : P.toFinset ∪ E.toFinset ≠ ∅ := by
    intro h
    exact hEf (Finset.union_eq_empty.mp h).2
  simp [calculate_criteria_accuracy, hE, hEf, hu]

theorem union_card_pos (P E : List String) (hE : E ≠ []) :
    0 < ((P.toFinset ∪ E.toFinset).card : ℚ) := by
  have hEf : E.toFinset.Nonempty := by
    simpa [Finset.nonempty_iff_ne_empty, List.toFinset_eq_empty_iff] using hE
  exact_mod_cast Finset.card_pos.mpr (hEf.mono Finset.subset_union_right)

/-- C4 counterexample: the criteria-accuracy function is not symmetric.
With one empty list the two argument orders give 1.0 and 0.0: the
empty-expected early return fires only for the second argument. -/
theorem criteria_accuracy_not_symmetric :
    calculate_criteria_accuracy ["PVS1"] [] ≠ calculate_criteria_accuracy [] ["PVS1"] := by
  have h1 : calculate_criteria_accuracy ["PVS1"] [] = 1 := by
    simp [calculate_criteria_accuracy]
  have h2 : calculate_criteria_accuracy [] ["PVS1"] = 0 := by
    rw [criteria_accuracy_eq_jaccard _ _ (by simp)]
    simp
  rw [h1, h2]
  norm_num

/-- C4 (amended): the criteria-accuracy function is symmetric on every pair
of lists that are both empty or both nonempty, and its result lies in [0,1]
for all inputs.  Symmetry fails only when exactly one list is empty, because
the `if not expected: return 1.0` early return inspects just the second
argument. -/
theorem criteria_accuracy_symmetry_bounded :
    (∀ P E : List String, (P = [] ↔ E = []) →
      calculate_criteria_accuracy P E = calculate_criteria_accuracy E P) ∧
    (∀ P E : List String,
      0 ≤ calculate_criteria_accuracy P E ∧ calculate_criteria_accuracy P E ≤ 1) := by
  constructor
  · intro P E h
    by_cases hE : E = []
    · have hP : P = [] := h.mpr hE
      subst hE; subst hP; rfl
    · have hP : P ≠ [] := fun hp => hE (h.mp hp)
      rw [criteria_accuracy_eq_jaccard P E hE, criteria_accuracy_eq_jaccard E P hP,
        Finset.inter_comm, Finset.union_comm]
  · intro P E
    by_cases hE : E = []
    · subst hE
      simp [calculate_criteria_accuracy]
    · rw [criteria_accuracy_eq_jaccard P E hE]
      have hpos := union_card_pos P E hE
      constructor
      · positivity
      · rw [div_le_one hpos]
        exact_mod_cast Finset.card_le_card
          (le_trans Finset.inter_subset_right Finset.subset_union_right)

/-- C4 witness: symmetry instance on two nonempty singleton lists, with
bounds at the same input. -/
theorem criteria_accuracy_symmetry_witness :
    calculate_criteria_accuracy ["PVS1"] ["PM2"] = calculate_criteria_accuracy ["PM2"] ["PVS1"] ∧
    (0 ≤ calculate_criteria_accuracy ["PVS1"] ["PM2"] ∧
      calculate_criteria_accuracy ["PVS1"] ["PM2"] ≤ 1) :=
  ⟨criteria_accuracy_symmetry_bounded.1 ["PVS1"] ["PM2"] (by simp),
   criteria_accuracy_symmetry_bounded.2 ["PVS1"] ["PM2"]⟩

/-- C5: criteria accuracy is 1.0 whenever the expected list is empty, equals
the Jaccard index |intersection|/|union| whenever the expected list is
nonempty, is 0.0 on disjoint nonempty inputs, and on the scenario-C input
(predicted PVS1 and PP3, expected PVS1 and PM2) equals 1/3. -/
theorem criteria_accuracy_spec :
    (∀ P E : List String, E = [] → calculate_criteria_accuracy P E = 1) ∧
    (∀ P E : List String, E ≠ [] →
      calculate_criteria_accuracy P E =
        ((P.toFinset ∩ E.toFinset).card : ℚ) / ((P.toFinset ∪ E.toFinset).card : ℚ)) ∧
    (∀ P E : List String, P ≠ [] → E ≠ [] → P.toFinset ∩ E.toFinset = ∅ →
      calculate_criteria_accuracy P E = 0) ∧
    calculate_criteria_accuracy ["PVS1"] ["PM2"] = 0 ∧
    calculate_criteria_accuracy ["PVS1", "PP3"] ["PVS1", "PM2"] = 1 / 3 := by
  refine ⟨?_, ?_, ?_, by simp [calculate_criteria_accuracy],
    by simp [calculate_criteria_accuracy]⟩
  · intro P E hE
    simp [calculate_criteria_accuracy, hE]
  · intro P E hE
    exact criteria_accuracy_eq_jaccard P E hE
  · intro P E _ hE hdisj
    rw [criteria_accuracy_eq_jaccard P E hE, hdisj]
    simp

/-- C5 witness: the three universally quantified conjuncts instantiated at
concrete inputs, with every hypothesis discharged by evaluation. -/
theorem criteria_accuracy_spec_witness :
    calculate_criteria_accuracy ["PVS1"] [] = 1 ∧
    calculate_criteria_accuracy ["PVS1"] ["PVS1"] =
      (((["PVS1"] : List String).toFinset ∩ (["PVS1"] : List String).toFinset).card : ℚ) /
        (((["PVS1"] : List String).toFinset ∪ (["PVS1"] : List String).toFinset).card : ℚ) ∧
    calculate_criteria_accuracy ["BA1"] ["BS1"] = 0 :=
  ⟨criteria_accuracy_spec.1 ["PVS1"] [] rfl,
   criteria_accuracy_spec.2.1 ["PVS1"] ["PVS1"] (by simp),
   criteria_accuracy_spec.2.2.1 ["BA1"] ["BS1"] (by simp) (by simp) (by simp)⟩

/-- C6: classification tolerance is reflexive, a non-equal prediction is
accepted exactly when it is an immediate neighbor of the expected label on
the five-point ordered scale, and tolerant("Benign", "Pathogenic") is
false. -/
theorem classification_tolerance_reflexive_adjacent :
    (∀ x : String, classify_prediction_accuracy x x = true) ∧
    (∀ p e : String, p ≠ e →
      (classify_prediction_accuracy p e = true ↔ adjacentOnScale e p)) ∧
    classify_prediction_accuracy "Benign" "Pathogenic" = false := by
  refine ⟨fun x => by simp [classify_prediction_accuracy], ?_, by decide⟩
  intro p e hne
  have h1 : classify_prediction_accuracy p e = decide (p ∈ acceptable_mappings e) := by
    simp [classify_prediction_accuracy, hne]
  rw [h1, decide_eq_true_iff, mem_acceptable_iff_pairs]
  exact (adjacent_iff_pairs e p).symm

/-- C6 witness: the adjacency characterization instantiated at the
non-equal pair (predicted Likely Pathogenic, expected Pathogenic). -/
theorem classification_tolerance_witness :
    ("Likely Pathogenic" : String) ≠ "Pathogenic" ∧
    (classify_prediction_accuracy "Likely Pathogenic" "Pathogenic" = true ↔
      adjacentOnScale "Pathogenic" "Likely Pathogenic") :=
  ⟨by decide,
   classification_tolerance_reflexive_adjacent.2.1 "Likely Pathogenic" "Pathogenic" (by decide)⟩

/-- C7: a successfully classified test case passes exactly when classification
tolerance holds between predicted and expected and the confidence is at least
the threshold minus 0.1; scenario B (expected Pathogenic, predicted Likely
Pathogenic, confidence 0.93, threshold 0.95) passes. -/
theorem validate_test_case_passed_iff :
    (∀ (tc : ClinicalTestCase) (cr : ClassificationResult) (elapsed : ℚ),
      ((validate_test_case tc (.ok cr) elapsed).passed = true ↔
        (classify_prediction_accuracy (cr.classification.getD "Unknown")
            tc.expected_classification = true ∧
          cr.confidence.getD 0 ≥ tc.confidence_threshold - 1 / 10))) ∧
    (validate_test_case
        ⟨"scenario_b", "hgvs", "gene", "Pathogenic", [], [], "ref", 95 / 100⟩
        (.ok ⟨some "Likely Pathogenic", some (93 / 100), some []⟩) 1).passed = true := by
  constructor
  · intro tc cr elapsed
    simp [validate_test_case]
  · have h1 : classify_prediction_accuracy "Likely Pathogenic" "Pathogenic" = true := by
      decide
    simp only [validate_test_case, Option.getD_some, h1, Bool.true_and]
    rw [decide_eq_true_iff]
    norm_num

/-- C10: for an expected label outside the five-point scale the tolerance
predicate degenerates to exact string equality. -/
theorem tolerance_exact_match_outside_scale :
    ∀ p e : String, e ∉ classification_scale →
      (classify_prediction_accuracy p e = true ↔ p = e) := by
  intro p e he
  simp only [classification_scale, List.mem_cons, List.not_mem_nil, or_false, not_or] at he
  obtain ⟨h1, h2, h3, h4, h5⟩ := he
  have hm : acceptable_mappings e = [] := by
    simp [acceptable_mappings, h1, h2, h3, h4, h5]
  by_cases hp : p = e
  · simp [classify_prediction_accuracy, hp]
  · simp [classify_prediction_accuracy, hp, hm]

/-- C10 witness: the out-of-scale label "Unknown" accepts only an exact
match. -/
theorem tolerance_outside_scale_witness :
    ("Unknown" : String) ∉ classification_scale ∧
    (classify_prediction_accuracy "Pathogenic" "Unknown" = true ↔
      ("Pathogenic" : String) = "Unknown") :=
  ⟨by decide, tolerance_exact_match_outside_scale "Pathogenic" "Unknown" (by decide)⟩

theorem foldl_category_append (l : List (String × ClassMetrics)) (init : List String) :
    l.foldl
      (fun acc x =>
        if x.2.accuracy < 90 / 100 then acc ++ [category_recommendation x.1 x.2.accuracy]
        else acc)
      init =
    init ++ (l.filter (fun x => decide (x.2.accuracy < 90 / 100))).map
      (fun x => category_recommendation x.1 x.2.accuracy) := by
  induction l generalizing init with
  | nil => simp
  | cons a l ih =>
    by_cases h : a.2.accuracy < 90 / 100
    · simp [List.foldl_cons, h, ih, List.filter_cons]
    · simp [List.foldl_cons, h, ih, List.filter_cons]

theorem generate_recommendations_eq (ca cra art : ℚ) (byc : List (String × ClassMetrics)) :
    generate_recommendations ca cra art byc =
      (if ((if ca < 95 / 100 then
          ["Classification accuracy below 95% - review failed cases for systematic issues"]
         else []) ++
        (if cra < 80 / 100 then
          ["ACMG/AMP criteria accuracy below 80% - review criteria application logic"]
         else []) ++
        (if art > 5 then
          ["Average response time > 5 seconds - consider performance optimization"]
         else []) ++
        (byc.filter (fun x => decide (x.2.accuracy < 90 / 100))).map
          (fun x => category_recommendation x.1 x.2.accuracy)) = [] then
        ["All clinical accuracy metrics meet or exceed targets"]
       else
        (if ca < 95 / 100 then
          ["Classification accuracy below 95% - review failed cases for systematic issues"]
         else []) ++
        (if cra < 80 / 100 then
          ["ACMG/AMP criteria accuracy below 80% - review criteria application logic"]
         else []) ++
        (if art > 5 then
          ["Average response time > 5 seconds - consider performance optimization"]
         else []) ++
        (byc.filter (fun x => decide (x.2.accuracy < 90 / 100))).map
          (fun x => category_recommendation x.1 x.2.accuracy)) := by
  have hinit :
      (if art > 5 then
        (if cra < 80 / 100 then
          (if ca < 95 / 100 then
            [] ++ ["Classification accuracy below 95% - review failed cases for systematic issues"]
           else []) ++
          ["ACMG/AMP criteria accuracy below 80% - review criteria application logic"]
         else
          (if ca < 95 / 100 then
            [] ++ ["Classification accuracy below 95% - review failed cases for systematic issues"]
           else [])) ++
        ["Average response time > 5 seconds - consider performance optimization"]
       else
        (if cra < 80 / 100 then
          (if ca < 95 / 100 then
            [] ++ ["Classification accuracy below 95% - review failed cases for systematic issues"]
           else []) ++
          ["ACMG/AMP criteria accuracy below 80% - review criteria application logic"]
         else
          (if ca < 95 / 100 then
            [] ++ ["Classification accuracy below 95% - review failed cases for systematic issues"]
           else []))) =
      (if ca < 95 / 100 then
        ["Classification accuracy below 95% - review failed cases for systematic issues"]
       else []) ++
      (if cra < 80 / 100 then
        ["ACMG/AMP criteria accuracy below 80% - review criteria application logic"]
       else []) ++
      (if art > 5 then
        ["Average response time > 5 seconds - consider performance optimization"]
       else []) := by
    by_cases h1 : ca < 95 / 100 <;> by_cases h2 : cra < 80 / 100 <;> by_cases h3 : art > 5 <;>
      simp [h1, h2, h3]
  simp only [generate_recommendations]
  rw [foldl_category_append, hinit]

/-- C9: recommendation generation appends exactly one fixed advisory string
per firing rule — classification accuracy under 0.95, criteria accuracy under
0.80, average response time over 5 seconds, and one per category whose
accuracy is under 0.90 — and produces exactly the single affirmative
statement when no rule fires. -/
theorem generate_recommendations_rule_counts :
    ∀ (ca cra art : ℚ) (byc : List (String × ClassMetrics)),
      ((if ca < 95 / 100 then 1 else 0) + (if cra < 80 / 100 then 1 else 0) +
            (if art > 5 then 1 else 0) +
            byc.countP (fun x => decide (x.2.accuracy < 90 / 100)) ≠ 0 →
        (generate_recommendations ca cra art byc).length =
          (if ca < 95 / 100 then 1 else 0) + (if cra < 80 / 100 then 1 else 0) +
            (if art > 5 then 1 else 0) +
            byc.countP (fun x => decide (x.2.accuracy < 90 / 100))) ∧
      ((if ca < 95 / 100 then 1 else 0) + (if cra < 80 / 100 then 1 else 0) +
            (if art > 5 then 1 else 0) +
            byc.countP (fun x => decide (x.2.accuracy < 90 / 100)) = 0 →
        generate_recommendations ca cra art byc =
          ["All clinical accuracy metrics meet or exceed targets"]) := by
  intro ca cra art byc
  rw [generate_recommendations_eq]
  set F := byc.filter (fun x => decide (x.2.accuracy < 90 / 100)) with hF
  have hcount : byc.countP (fun x => decide (x.2.accuracy < 90 / 100)) = F.length := by
    rw [List.countP_eq_length_filter, hF]
  set L :=
    (if ca < 95 / 100 then
      ["Classification accuracy below 95% - review failed cases for systematic issues"]
     else ([] : List String)) ++
    (if cra < 80 / 100 then
      ["ACMG/AMP criteria accuracy below 80% - review criteria application logic"]
     else []) ++
    (if art > 5 then
      ["Average response time > 5 seconds - consider performance optimization"]
     else []) ++
    F.map (fun x => category_recommendation x.1 x.2.accuracy) with hL
  have hlen : L.length =
      (if ca < 95 / 100 then 1 else 0) + (if cra < 80 / 100 then 1 else 0) +
        (if art > 5 then 1 else 0) +
        byc.countP (fun x => decide (x.2.accuracy < 90 / 100)) := by
    rw [hL, hcount]
    by_cases h1 : ca < 95 / 100 <;> by_cases h2 : cra < 80 / 100 <;> by_cases h3 : art > 5 <;>
      simp [h1, h2, h3] <;> omega
  constructor
  · intro hne
    have hLne : L ≠ [] := by
      intro hnil
      apply hne
      rw [← hlen, hnil]
      rfl
    rw [if_neg hLne]
    exact hlen
  · intro hzero
    have hLnil : L = [] := by
      apply List.length_eq_zero.mp
      rw [hlen, hzero]
    rw [if_pos hLnil]

/-- C9 witness: one firing rule gives a one-element list; no firing rule
gives the affirmative statement. -/
theorem generate_recommendations_witness :
    (generate_recommendations (1 / 2) 1 0 []).length = 1 ∧
    generate_recommendations 1 1 0 [] =
      ["All clinical accuracy metrics meet or exceed targets"] := by
  constructor
  · have h := (generate_recommendations_rule_counts (1 / 2) 1 0 []).1 (by norm_num)
    norm_num at h
    exact h
  · exact (generate_recommendations_rule_counts 1 1 0 []).2 (by norm_num)

end ClinicalAccuracyValidator

namespace MCPProtocolValidator

/-- A parsed JSON-RPC line read from the child stdout, as produced by
`json.loads(response_line.decode())` in mcp-protocol-compliance.py
(line 119).  Payloads are kept opaque: `result` is an uninterpreted string
and `error` a (code, message) pair; no claim inspects their structure. -/
structure RpcMessage where
  jsonrpc : Option String
  id : Option Int
  result : Option String
  error : Option (Int × String)

/-- The request object serialized and written by `send_message`
(lines 91-105): the fixed jsonrpc version, the freshly assigned id, the
method, and optional opaque params. -/
structure RpcRequest where
  jsonrpc : String
  id : ℕ
  method : String
  params : Option String

/-- One interaction with `stdout.readline()`: the child writes a complete
line, reaches end of stream, or writes nothing at all (modelling a child
that never produces a further line). -/
inductive ReadEvent where
  | line (msg : RpcMessage)
  | eof
  | silence

/-- The fixed deadline passed to `asyncio.wait_for` in `send_message`
(line 111): 30.0 seconds, with no per-call override parameter. -/
def response_timeout_seconds : ℚ := 30

/-- The transport-relevant fields of `MCPProtocolValidator`: the id counter
(`self.message_id`, starting at 0), the requests written to the child
stdin, and the pending child stdout behavior. -/
structure TransportState where
  message_id : ℕ
  written : List RpcRequest
  stdout : List ReadEvent

/-- Embeds `MCPProtocolValidator.send_message` (lines 86-122): increment the
id counter, write the request, then read exactly one line with a 30 s
deadline.  `asyncio.TimeoutError` becomes `RuntimeError("Response timeout")`
and an empty read becomes `RuntimeError("Server connection closed")`; the
line that does arrive is returned as-is, with no comparison of its id
against the request id. -/
def send_message (method : String) (params : Option String) (st : TransportState) :
    Except String (TransportState × RpcMessage) :=
  let mid := st.message_id + 1
  let st1 : TransportState :=
    { st with message_id := mid, written := st.written ++ [⟨"2.0", mid, method, params⟩] }
  match st1.stdout with
  | [] => .error "Server connection closed"
  | ReadEvent.silence :: _ => .error "Response timeout"
  | ReadEvent.eof :: _ => .error "Server connection closed"
  | ReadEvent.line msg :: rest => .ok ({ st1 with stdout := rest }, msg)

/-- Embeds the `ValidationResult` dataclass of mcp-protocol-compliance.py
(lines 36-43).  The `details` dict (`{"exception": str(e)}` on failure) is
modelled by the optional exception string. -/
structure ValidationResult where
  test_name : String
  passed : Bool
  message : String
  details : Option String
  duration : Option ℚ

/-- A registered check: its name and the behavior of its procedure — either
completion or a raised exception with its message — together with the wall
time the run of the procedure consumes. -/
structure CheckSpec where
  test_name : String
  outcome : Except String Unit
  elapsed : ℚ

/-- Child-process handle state: whether `terminate()` has been delivered. -/
structure ProcState where
  terminated : Bool

/-- The lifecycle-relevant fields of `MCPProtocolValidator`: the optional
child-process handle (`self.process`, initially None), the accumulated
results list (`self.results`), and an instrumentation counter of
`disconnect()` invocations. -/
structure ValidatorState where
  process : Option ProcState
  results : List ValidationResult
  disconnect_calls : ℕ

/-- Embeds `add_result` (lines 124-134): construct a `ValidationResult` and
append it to `self.results`. -/
def add_result (st : ValidatorState) (test_name : String) (passed : Bool) (message : String)
    (details : Option String) (duration : Option ℚ) : ValidatorState :=
  { st with results := st.results ++
      [{ test_name := test_name, passed := passed, message := message,
         details := details, duration := duration }] }

/-- Embeds `run_test` (lines 139-156): run one check, catch any exception it
raises, and record exactly one result either way. -/
def run_test (st : ValidatorState) (spec : CheckSpec) : ValidatorState :=
  match spec.outcome with
  | .ok _ => add_result st spec.test_name true "Test passed" none (some spec.elapsed)
  | .error e =>
      add_result st spec.test_name false (s!"Test failed: {e}") (some e) (some spec.elapsed)

/-- The result record `run_test` appends for one check. -/
def check_result_of (spec : CheckSpec) : ValidationResult :=
  match spec.outcome with
  | .ok _ =>
      { test_name := spec.test_name, passed := true, message := "Test passed",
        details := none, duration := some spec.elapsed }
  | .error e =>
      { test_name := spec.test_name, passed := false, message := s!"Test failed: {e}",
        details := some e, duration := some spec.elapsed }

/-- Embeds `connect` (lines 68-78): spawn the child process.  Whether the
spawn succeeds is decided by the environment (`spawn_ok`); on failure the
exception escapes and `self.process` is left unchanged. -/
def connect (spawn_ok : Bool) (st : ValidatorState) : Except String ValidatorState :=
  if spawn_ok then .ok { st with process := some ⟨false⟩ }
  else .error "ConnectError"

/-- Embeds `disconnect` (lines 80-84): if a process handle exists, terminate
it and wait; otherwise do nothing.  The invocation counter records that the
method was called. -/
def disconnect (st : ValidatorState) : ValidatorState :=
  let st1 := { st with disconnect_calls := st.disconnect_calls + 1 }
  match st1.process with
  | some _ => { st1 with process := some ⟨true⟩ }
  | none => st1

/-- Embeds `run_all_validations` (lines 469-495): connect inside a
`try/finally`, run the fixed battery of checks in registration order with
`run_test`, and invoke `disconnect` on the way out of the `try` block whether
connect succeeded or raised.  The returned pair carries the final state on
both exit paths (the `finally` semantics) together with the outcome. -/
def run_all_validations (spawn_ok : Bool) (tests : List CheckSpec) (st : ValidatorState) :
    ValidatorState × Except String Unit :=
  match connect spawn_ok st with
  | .ok st1 => (disconnect (tests.foldl run_test st1), .ok ())
  | .error e => (disconnect st, .error e)

end MCPProtocolValidator

namespace MCPClient

/-- Embeds the `MCPMessage` dataclass of python-client.py (lines 22-30). -/
structure MCPMessage where
  jsonrpc : String
  id : Option Int
  method : Option String
  params : Option String
  result : Option String
  error : Option (Int × String)

/-- The transport-relevant fields of `MCPClient`: the optional child-process
handle, the id counter and the pending child stdout behavior.  Requests
written to stdin are not tracked; no claim concerns them on this side. -/
structure ClientState where
  process : Option MCPProtocolValidator.ProcState
  message_id : ℕ
  stdout : List MCPProtocolValidator.ReadEvent

/-- Embeds `MCPClient.send_message` (python-client.py, lines 67-99): raise if
not connected, write the serialized message, then await `readline()` with no
timeout.  A child that never writes a line leaves the call suspended forever,
modelled by `none`; an empty read raises `RuntimeError("Server connection
closed")`; an arriving line is parsed into an `MCPMessage` with no id
check. -/
def send_message (message : MCPMessage) (st : ClientState) :
    Option (Except String (ClientState × MCPMessage)) :=
  if st.process.isNone then some (.error "Not connected to MCP server")
  else
    match st.stdout with
    | MCPProtocolValidator.ReadEvent.silence :: _ => none
    | [] => some (.error "Server connection closed")
    | MCPProtocolValidator.ReadEvent.eof :: _ => some (.error "Server connection closed")
    | MCPProtocolValidator.ReadEvent.line r :: rest =>
        some (.ok ({ st with stdout := rest },
          { jsonrpc := r.jsonrpc.getD "2.0", id := r.id, method := none, params := none,
            result := r.result, error := r.error }))

end MCPClient

namespace MCPProtocolValidator

theorem run_test_eq (st : ValidatorState) (spec : CheckSpec) :
    run_test st spec = { st with results := st.results ++ [check_result_of spec] } := by
  rcases spec with ⟨n, o, d⟩
  cases o <;> rfl

theorem foldl_run_test (tests : List CheckSpec) (st : ValidatorState) :
    (tests.foldl run_test st).results = st.results ++ tests.map check_result_of ∧
    (tests.foldl run_test st).process = st.process ∧
    (tests.foldl run_test st).disconnect_calls = st.disconnect_calls := by
  induction tests generalizing st with
  | nil => simp
  | cons t ts ih =>
    simp only [List.foldl_cons, List.map_cons]
    rw [run_test_eq]
    rcases ih { st with results := st.results ++ [check_result_of t] } with ⟨h1, h2, h3⟩
    refine ⟨?_, h2, h3⟩
    rw [h1]
    simp

theorem check_result_of_name (spec : CheckSpec) :
    (check_result_of spec).test_name = spec.test_name := by
  rcases spec with ⟨n, o, d⟩
  cases o <;> rfl

theorem disconnect_results (st : ValidatorState) : (disconnect st).results = st.results := by
  rcases st with ⟨p, r, c⟩
  cases p <;> rfl

theorem disconnect_calls_succ (st : ValidatorState) :
    (disconnect st).disconnect_calls = st.disconnect_calls + 1 := by
  rcases st with ⟨p, r, c⟩
  cases p <;> rfl

/-- C1: when connect succeeds, running the battery records exactly one result
per registered check, in registration order, no matter which check
procedures raise failures: the result list has the same length and the same
name sequence as the registered check list, and the run completes
normally. -/
theorem run_all_validations_one_result_per_check :
    ∀ (tests : List CheckSpec) (proc : Option ProcState) (calls : ℕ),
      (run_all_validations true tests ⟨proc, [], calls⟩).2 = .ok () ∧
      ((run_all_validations true tests ⟨proc, [], calls⟩).1.results).length = tests.length ∧
      ((run_all_validations true tests ⟨proc, [], calls⟩).1.results).map
          (fun r => r.test_name) =
        tests.map (fun t => t.test_name) := by
  intro tests proc calls
  have hres :
      (run_all_validations true tests ⟨proc, [], calls⟩).1.results =
        tests.map check_result_of := by
    show (disconnect (tests.foldl run_test ⟨some ⟨false⟩, [], calls⟩)).results = _
    rw [disconnect_results, (foldl_run_test tests _).1]
    simp
  refine ⟨rfl, ?_, ?_⟩
  · rw [hres, List.length_map]
  · rw [hres, List.map_map]
    exact List.map_congr_left fun t _ => check_result_of_name t

/-- C8: the validator invokes `disconnect` exactly once on every exit path of
`run_all_validations` — both when connect succeeds (whatever the check
outcomes) and when connect fails; calling `disconnect` after a failed
connect (no process handle) leaves the handle absent, doing nothing; and a
second `disconnect` leaves the process component exactly as the first left
it, so repeated calls are safe. -/
theorem disconnect_on_every_exit_path :
    (∀ (spawn_ok : Bool) (tests : List CheckSpec) (st : ValidatorState),
      (run_all_validations spawn_ok tests st).1.disconnect_calls = st.disconnect_calls + 1) ∧
    (∀ (results : List ValidationResult) (calls : ℕ),
      (disconnect ⟨none, results, calls⟩).process = none) ∧
    (∀ st : ValidatorState, (disconnect (disconnect st)).process = (disconnect st).process) := by
  refine ⟨?_, fun results calls => rfl, ?_⟩
  · intro spawn_ok tests st
    cases spawn_ok with
    | false => exact disconnect_calls_succ st
    | true =>
      show (disconnect (tests.foldl run_test _)).disconnect_calls = _
      rw [disconnect_calls_succ, (foldl_run_test tests _).2.2]
  · intro st
    rcases st with ⟨p, r, c⟩
    cases p <;> rfl

/-- C2 counterexample: the transport performs no id matching.  Against a
fresh transport (counter 0) whose next stdout line carries id 42 — a stale
id, since the request about to be sent is assigned id 1 — `send_message`
returns that line as the answer to the call, so the delivered response id (42)
differs from the request id (1). -/
theorem send_message_stale_id_delivered :
    send_message "tools/list" none
        ⟨0, [], [ReadEvent.line ⟨some "2.0", some 42, some "{}", none⟩]⟩ =
      .ok (⟨1, [⟨"2.0", 1, "tools/list", none⟩], []⟩,
        ⟨some "2.0", some 42, some "{}", none⟩) ∧
    (⟨some "2.0", some 42, some "{}", none⟩ : RpcMessage).id ≠
      some ((1 : ℕ) : Int) := by
  refine ⟨rfl, ?_⟩
  simp

/-- C2 (amended): responses are delivered to callers strictly in read order,
with no comparison of the id of the line against the id of the request: for any two
pending stdout lines — whatever ids they carry, including stale or swapped
ones — the first send returns the first line and the second send returns the
second line, while the requests are assigned ids `mid+1` and `mid+2`. -/
theorem send_message_delivers_in_read_order :
    ∀ (m1 m2 : String) (p1 p2 : Option String) (mid : ℕ) (written : List RpcRequest)
      (msgA msgB : RpcMessage) (rest : List ReadEvent),
      send_message m1 p1 ⟨mid, written, .line msgA :: .line msgB :: rest⟩ =
        .ok (⟨mid + 1, written ++ [⟨"2.0", mid + 1, m1, p1⟩], .line msgB :: rest⟩, msgA) ∧
      send_message m2 p2
          ⟨mid + 1, written ++ [⟨"2.0", mid + 1, m1, p1⟩], .line msgB :: rest⟩ =
        .ok (⟨mid + 2,
          (written ++ [⟨"2.0", mid + 1, m1, p1⟩]) ++ [⟨"2.0", mid + 2, m2, p2⟩], rest⟩,
          msgB) := by
  intro m1 m2 p1 p2 mid written msgA msgB rest
  exact ⟨rfl, rfl⟩

/-- C3 counterexample: `send_message` of the example client has no timeout at
all — against a connected child process that never writes a response line
the call never completes (it is suspended forever), rather than failing
with a Timeout error after any deadline. -/
theorem client_send_message_hangs_without_timeout :
    MCPClient.send_message
        ⟨"2.0", some 1, some "tools/list", none, none, none⟩
        ⟨some ⟨false⟩, 1, [ReadEvent.silence]⟩ = none := rfl

/-- C3 (amended): only the transport of the compliance validator enforces a
deadline: when the child never writes a line its `send_message` fails with
the `Response timeout` error, the deadline is the fixed constant 30 seconds
with no per-call override parameter, and `send_message` of the example client
never completes in the same situation. -/
theorem send_message_timeout_behavior :
    (∀ (method : String) (params : Option String) (mid : ℕ) (written : List RpcRequest)
        (rest : List ReadEvent),
      send_message method params ⟨mid, written, ReadEvent.silence :: rest⟩ =
        .error "Response timeout") ∧
    response_timeout_seconds = 30 ∧
    (∀ (msg : MCPClient.MCPMessage) (proc : ProcState) (mid : ℕ)
        (rest : List ReadEvent),
      MCPClient.send_message msg ⟨some proc, mid, ReadEvent.silence :: rest⟩ = none) := by
  exact ⟨fun _ _ _ _ _ => rfl, rfl, fun _ _ _ _ => rfl⟩

end MCPProtocolValidator
